import Mathlib

/-!
# Error middleware of the leader service

A shallow embedding of `lib/error-middleware.js`, the handler that turns the
message text of an error into an HTTP status, together with the paginated
listing that the route tests exercise.

JavaScript strings are sequences of UTF-16 code units.  The two library
operations the handler uses on them, `String.prototype.toLowerCase` and
`String.prototype.indexOf` / `includes`, are embedded on that representation.
-/

set_option maxRecDepth 20000

namespace Lab13

/-! ## JavaScript strings -/

/-- A JavaScript string value: the sequence of its UTF-16 code units. -/
abbrev JSString := List Nat

/-- UTF-16 encoding of one Unicode scalar value. -/
def utf16Char (c : Char) : JSString :=
  if c.toNat < 0x10000 then [c.toNat]
  else [0xD800 + (c.toNat - 0x10000) / 0x400, 0xDC00 + (c.toNat - 0x10000) % 0x400]

/-- UTF-16 encoding of a list of scalar values. -/
def utf16 : List Char → JSString
  | [] => []
  | c :: cs => utf16Char c ++ utf16 cs

/-- The JavaScript string denoted by a source literal. -/
def js (s : String) : JSString := utf16 s.toList

/-- The lower-casing of the code units outside ASCII, which `toLowerCase` takes
from the Unicode character database (simple and special casing, the latter
depending on the surrounding text): the code units produced for the unit `c`
standing between `before` and `after`. -/
abbrev UnicodeLowering := JSString → Nat → JSString → JSString

/-- Lower-casing of an ASCII code unit: `A`..`Z` move to `a`..`z`, every other
unit stays. -/
def lowerAscii (c : Nat) : Nat :=
  if 65 ≤ c ∧ c ≤ 90 then c + 32 else c

/-- What `toLowerCase` produces for one code unit in its context. -/
def lowerUnit (u : UnicodeLowering) (before : JSString) (c : Nat) (after : JSString) :
    JSString :=
  if c < 128 then [lowerAscii c] else u before c after

/-- Worker of `toLowerCase`: lower-cases `s`, which stands after `before`. -/
def toLowerCaseFrom (u : UnicodeLowering) : JSString → JSString → JSString
  | _, [] => []
  | before, c :: after =>
      lowerUnit u before c after ++ toLowerCaseFrom u (before ++ [c]) after

/-- `String.prototype.toLowerCase`. -/
def toLowerCase (u : UnicodeLowering) (s : JSString) : JSString :=
  toLowerCaseFrom u [] s

/-- Worker of `indexOf`: the first position, counted from `k`, at which
`search` occurs in `s`, or `-1`. -/
def indexOfFrom (search : JSString) : JSString → Nat → Int
  | [], k => if search.isPrefixOf [] then (k : Int) else -1
  | c :: rest, k =>
      if search.isPrefixOf (c :: rest) then (k : Int) else indexOfFrom search rest (k + 1)

/-- `String.prototype.indexOf(search)`. -/
def indexOf (s search : JSString) : Int :=
  indexOfFrom search s 0

/-- `String.prototype.includes(search)`: whether `indexOf` finds an occurrence. -/
def includes (s search : JSString) : Bool :=
  indexOf s search != -1

/-- A Unicode lowering that leaves every unit outside ASCII as it is; it agrees
with the platform on text that is ASCII throughout. -/
def asciiOnly : UnicodeLowering := fun _ c _ => [c]

/-! ## The handler's arguments -/

/-- An exception thrown while the handler runs. -/
inductive JSError where
  | typeError
  deriving DecidableEq, Repr

deriving instance DecidableEq for Except

/-- The error value handed to the handler.  `message` is `none` when the value
has no `message` property (reading it gives `undefined`), and the string
otherwise; the handler reads no other field. -/
structure Err where
  message : Option JSString
  name : JSString
  code : Option Nat
  stack : Option JSString
  deriving DecidableEq, Repr

/-- The request object; the handler does not read it. -/
structure Req where
  method : JSString
  url : JSString
  body : JSString
  deriving DecidableEq, Repr

/-- A call made on the response object. -/
inductive ResCall where
  | status (code : Nat)
  | json (body : JSString)
  | send (body : JSString)
  | sendStatus (code : Nat)
  deriving DecidableEq, Repr

/-- The response object, as the calls made on it so far. -/
structure Res where
  calls : List ResCall
  deriving DecidableEq, Repr

/-- The call `res.sendStatus(code)`. -/
def Res.sendStatus (res : Res) (code : Nat) : Res :=
  { calls := res.calls ++ [ResCall.sendStatus code] }

/-- The `next` callback, as the number of times it has been invoked. -/
structure Next where
  invocations : Nat
  deriving DecidableEq, Repr

/-! ## `lib/error-middleware.js` -/

/-- The exported handler `(err, req, res, next) => ...`.  The result is either
the exception thrown or the response object and `next` callback after the
handler returned. -/
def errorMiddleware (u : UnicodeLowering) (err : Err) (_req : Req) (res : Res) (next : Next) :
    Except JSError (Res × Next) :=
  match err.message with
  | none => Except.error JSError.typeError
  | some message =>
    if includes (toLowerCase u message) (js "validation failed") then
      Except.ok (res.sendStatus 400, next)
    else if indexOf message (js "duplicate key") > -1 then
      Except.ok (res.sendStatus 409, next)
    else if includes (toLowerCase u message) (js "objectid failed") then
      Except.ok (res.sendStatus 404, next)
    else
      Except.ok (res.sendStatus 500, next)

/-- The handler answers with status `code`: it returns normally, having made
the one call `res.sendStatus(code)` and no call of `next`. -/
def respondsWith (u : UnicodeLowering) (err : Err) (req : Req) (res : Res) (next : Next)
    (code : Nat) : Prop :=
  errorMiddleware u err req res next = Except.ok (res.sendStatus code, next)

instance (u : UnicodeLowering) (err : Err) (req : Req) (res : Res) (next : Next) (code : Nat) :
    Decidable (respondsWith u err req res next code) := by
  unfold respondsWith; infer_instance

/-- The text `v` is the lower-case pattern `p` up to the case of its ASCII
letters: lower-casing `v` unit by unit gives `p`. -/
def isCaseVariantOf (v p : JSString) : Prop :=
  v.map lowerAscii = p

instance (v p : JSString) : Decidable (isCaseVariantOf v p) := by
  unfold isCaseVariantOf; infer_instance

/-! ## Sample arguments -/

/-- An `Error` object carrying the message `msg`. -/
def errorWith (msg : JSString) : Err :=
  { message := some msg, name := js "Error", code := none, stack := none }

/-- A `GET` request for one leader. -/
def sampleReq : Req :=
  { method := js "GET", url := js "/api/leader/5952a8d5c1b8d566a64ea23g", body := [] }

/-- A response object on which nothing has been called yet. -/
def freshRes : Res := { calls := [] }

/-- A `next` callback that has not been invoked. -/
def freshNext : Next := { invocations := 0 }

/-- An error value without a `message` property. -/
def messageless : Err :=
  { message := none, name := js "Error", code := none, stack := none }

/-- The message of the database's cast failure for the identifier `id`:
`Cast to ObjectId failed for value "<id>" at path "_id"`. -/
def castErrorMessage (id : JSString) : JSString :=
  js "Cast to ObjectId failed for value \"" ++ id ++ js "\" at path \"_id\""

/-- The malformed identifier of the route tests. -/
def testId : JSString := js "5952a8d5c1b8d566a64ea23g"

/-- The ordered table of the specification, first match wins: the status for
the message `m`. -/
def tableStatus (u : UnicodeLowering) (m : JSString) : Nat :=
  if js "validation failed" <:+: toLowerCase u m then 400
  else if js "duplicate key" <:+: m then 409
  else if js "objectid failed" <:+: toLowerCase u m then 404
  else 500

/-! ## The paginated listing -/

/-- Modelled from the spec: the leader entity; the model file of the store is
not among the sources. -/
structure Leader where
  _id : JSString
  firstName : JSString
  lastName : JSString
  submitted : Nat
  deriving DecidableEq, Repr

/-- Modelled from the spec: the fixed page size, `limit = 10`. -/
def pageLimit : Nat := 10

/-- Modelled from the spec: `offset = (page-1)*10` for a 1-based page. -/
def pageOffset (page : Nat) : Nat := (page - 1) * 10

/-- Modelled from the spec: the store operation `list(page)`, whose code is not
among the sources: the records from the page's offset on, at most `limit` of
them, in insertion order; the page defaults to 1. -/
def list (store : List Leader) (page : Option Nat) : List Leader :=
  (store.drop (pageOffset (page.getD 1))).take pageLimit

/-- Modelled from the spec: the route `GET /api/leaders?page=N`, whose code is
not among the sources: status 200 and the page's records. -/
def getLeaders (store : List Leader) (page : Option Nat) : Nat × List Leader :=
  (200, list store page)

/-- A store of `n` leaders. -/
def mockLeaders (n : Nat) : List Leader :=
  (List.range n).map fun i =>
    { _id := [i], firstName := js "Michael", lastName := js "Miller", submitted := i }

/-! ## Facts about the string operations -/

theorem indexOfFrom_eq_or_ge (search s : JSString) (k : Nat) :
    indexOfFrom search s k = -1 ∨ (k : Int) ≤ indexOfFrom search s k := by
  induction s generalizing k with
  | nil =>
    unfold indexOfFrom
    split
    · right; exact le_refl _
    · left; rfl
  | cons c rest ih =>
    unfold indexOfFrom
    split
    · right; exact le_refl _
    · rcases ih (k + 1) with h | h
      · left; exact h
      · right; push_cast at h; omega

theorem indexOfFrom_found_iff (search s : JSString) (k : Nat) :
    indexOfFrom search s k ≠ -1 ↔ search <:+: s := by
  induction s generalizing k with
  | nil =>
    unfold indexOfFrom
    by_cases h : search.isPrefixOf [] = true
    · rw [if_pos h]
      have h1 : search <+: [] := List.isPrefixOf_iff_prefix.mp h
      constructor
      · intro _; exact h1.isInfix
      · intro _; omega
    · rw [if_neg h]
      constructor
      · intro h2; exact absurd rfl h2
      · intro h2
        have h3 : search = [] := List.eq_nil_of_infix_nil h2
        subst h3
        exact absurd rfl h
  | cons c rest ih =>
    unfold indexOfFrom
    rw [List.infix_cons_iff]
    by_cases h : search.isPrefixOf (c :: rest) = true
    · rw [if_pos h]
      constructor
      · intro _; exact Or.inl (List.isPrefixOf_iff_prefix.mp h)
      · intro _; omega
    · rw [if_neg h, ih (k + 1)]
      constructor
      · intro h2; exact Or.inr h2
      · rintro (h2 | h2)
        · exact absurd (List.isPrefixOf_iff_prefix.mpr h2) h
        · exact h2

/-- The call `s.includes(search)` is true exactly when `search` occurs in `s`. -/
theorem includes_iff (s search : JSString) : includes s search = true ↔ search <:+: s := by
  unfold includes indexOf
  rw [bne_iff_ne]
  exact indexOfFrom_found_iff search s 0

/-- The test `s.indexOf(search) > -1` holds exactly when `search` occurs in `s`. -/
theorem indexOf_gt_iff (s search : JSString) : indexOf s search > -1 ↔ search <:+: s := by
  rw [← indexOfFrom_found_iff search s 0]
  unfold indexOf
  rcases indexOfFrom_eq_or_ge search s 0 with h | h
  · rw [h]; simp
  · constructor
    · intro _; omega
    · intro _; push_cast at h; omega

theorem lowerAscii_lt {c : Nat} (h : lowerAscii c < 128) : c < 128 := by
  unfold lowerAscii at h
  split at h <;> omega

theorem toLowerCaseFrom_append (u : UnicodeLowering) (before a b : JSString) :
    ∃ x, toLowerCaseFrom u before (a ++ b) = x ++ toLowerCaseFrom u (before ++ a) b := by
  induction a generalizing before with
  | nil => exact ⟨[], by simp⟩
  | cons c a ih =>
    obtain ⟨x, hx⟩ := ih (before ++ [c])
    refine ⟨lowerUnit u before c (a ++ b) ++ x, ?_⟩
    show toLowerCaseFrom u before (c :: (a ++ b)) = _
    rw [toLowerCaseFrom, hx]
    simp [List.append_assoc]

theorem toLowerCaseFrom_ascii (u : UnicodeLowering) (before v b : JSString)
    (hv : ∀ c ∈ v, c < 128) :
    toLowerCaseFrom u before (v ++ b) =
      v.map lowerAscii ++ toLowerCaseFrom u (before ++ v) b := by
  induction v generalizing before with
  | nil => simp
  | cons c v ih =>
    have hc : c < 128 := hv c (List.mem_cons_self c v)
    have hrest : ∀ d ∈ v, d < 128 := fun d hd => hv d (List.mem_cons_of_mem c hd)
    show toLowerCaseFrom u before (c :: (v ++ b)) = _
    rw [toLowerCaseFrom, ih (before ++ [c]) hrest]
    simp [lowerUnit, hc, List.append_assoc]

/-- A case variant of an ASCII pattern, wherever it stands in a message, is
lower-cased to the pattern itself. -/
theorem caseVariant_lowered (u : UnicodeLowering) (a v b p : JSString)
    (hp : ∀ c ∈ p, c < 128) (hv : isCaseVariantOf v p) :
    p <:+: toLowerCase u (a ++ v ++ b) := by
  unfold isCaseVariantOf at hv
  have hascii : ∀ c ∈ v, c < 128 := by
    intro c hc
    apply lowerAscii_lt
    apply hp
    rw [← hv]
    exact List.mem_map_of_mem lowerAscii hc
  unfold toLowerCase
  rw [List.append_assoc]
  obtain ⟨x, hx⟩ := toLowerCaseFrom_append u [] a (v ++ b)
  rw [hx, toLowerCaseFrom_ascii u _ v b hascii, hv]
  exact ⟨x, toLowerCaseFrom u ([] ++ a ++ v) b, by simp [List.append_assoc]⟩

theorem infix_append_cons_of_not_mem {p l₁ l₂ : JSString} {c : Nat} (hc : c ∉ p) :
    p <:+: l₁ ++ c :: l₂ ↔ p <:+: l₁ ∨ p <:+: l₂ := by
  constructor
  · rintro ⟨s, t, h⟩
    rw [List.append_eq_append_iff] at h
    rcases h with ⟨a, h1, _⟩ | ⟨d, h1, h2⟩
    · left; exact ⟨s, a, h1.symm⟩
    · cases d with
      | nil =>
        left
        refine ⟨s, [], ?_⟩
        simpa using h1
      | cons e d =>
        simp only [List.cons_append, List.cons.injEq] at h2
        obtain ⟨rfl, h2⟩ := h2
        rw [List.append_eq_append_iff] at h1
        rcases h1 with ⟨a, _, h4⟩ | ⟨f, h3, h4⟩
        · exact absurd (h4 ▸ List.mem_append_right a (List.mem_cons_self c d)) hc
        · cases f with
          | nil =>
            simp only [List.nil_append] at h4
            exact absurd (h4 ▸ List.mem_cons_self c d) hc
          | cons g f =>
            simp only [List.cons_append, List.cons.injEq] at h4
            right
            refine ⟨f, t, ?_⟩
            rw [h2, h4.2]
  · rintro (h | h)
    · exact h.trans (List.infix_append' [] l₁ (c :: l₂))
    · exact h.trans ⟨l₁ ++ [c], [], by simp⟩

theorem sendStatus_injective (res : Res) {a b : Nat} (h : res.sendStatus a = res.sendStatus b) :
    a = b := by
  unfold Res.sendStatus at h
  simpa using h

/-! ## The handler as an ordered table -/

/-- The handler, on an error with a string message, sends the status of the
first matching row of the table. -/
theorem errorMiddleware_table (u : UnicodeLowering) (err : Err) (req : Req) (res : Res)
    (next : Next) (m : JSString) (hm : err.message = some m) :
    errorMiddleware u err req res next =
      Except.ok (res.sendStatus (tableStatus u m), next) := by
  unfold errorMiddleware tableStatus
  rw [hm]
  simp only [includes_iff, indexOf_gt_iff]
  split_ifs <;> rfl

theorem respondsWith_iff (u : UnicodeLowering) (err : Err) (req : Req) (res : Res)
    (next : Next) (m : JSString) (hm : err.message = some m) (code : Nat) :
    respondsWith u err req res next code ↔
      code = tableStatus u m := by
  unfold respondsWith
  rw [errorMiddleware_table u err req res next m hm]
  constructor
  · intro h
    injection h with h
    exact (sendStatus_injective res (congrArg Prod.fst h)).symm
  · intro h
    rw [h]

theorem ascii_validation : ∀ c ∈ js "validation failed", c < 128 := by decide

theorem ascii_objectid : ∀ c ∈ js "objectid failed", c < 128 := by decide

/-! ## The rows of the table -/

/-- C1: an error whose lower-cased message contains "validation failed" is
answered with 400, whatever else the message contains; so is every message in
which "validation failed" stands in any letter case. -/
theorem validation_failed_gives_400 (u : UnicodeLowering) (err : Err) (req : Req) (res : Res)
    (next : Next) (m : JSString) (hm : err.message = some m) :
    (js "validation failed" <:+: toLowerCase u m → respondsWith u err req res next 400) ∧
    (∀ a v b : JSString, m = a ++ v ++ b → isCaseVariantOf v (js "validation failed") →
      respondsWith u err req res next 400) := by
  have key : js "validation failed" <:+: toLowerCase u m →
      respondsWith u err req res next 400 := by
    intro h
    rw [respondsWith_iff u err req res next m hm, tableStatus, if_pos h]
  refine ⟨key, ?_⟩
  intro a v b hab hv
  apply key
  rw [hab]
  exact caseVariant_lowered u a v b _ ascii_validation hv

/-- C2: the answer is 409 exactly when the message contains "duplicate key" as
written and its lower-cased text does not contain "validation failed"; a
message containing "duplicate key" is never answered with 404, and one that
also contains "objectid failed" in some letter case is answered with 409 under
that same condition. -/
theorem duplicate_key_gives_409_iff (u : UnicodeLowering) (err : Err) (req : Req) (res : Res)
    (next : Next) (m : JSString) (hm : err.message = some m) :
    (respondsWith u err req res next 409 ↔
      js "duplicate key" <:+: m ∧ ¬ js "validation failed" <:+: toLowerCase u m) ∧
    (js "duplicate key" <:+: m → ¬ respondsWith u err req res next 404) ∧
    (∀ v : JSString, isCaseVariantOf v (js "objectid failed") → v <:+: m →
      js "duplicate key" <:+: m → ¬ js "validation failed" <:+: toLowerCase u m →
      respondsWith u err req res next 409 ∧ ¬ respondsWith u err req res next 404) := by
  simp only [respondsWith_iff u err req res next m hm, tableStatus]
  refine ⟨?_, ?_, ?_⟩
  · split_ifs <;> simp_all
  · intro hd
    split_ifs <;> simp_all
  · intro v _ _ hd hval
    rw [if_neg hval, if_pos hd]
    simp

/-- C3: the answer is 404 exactly when the lower-cased message contains
"objectid failed", the lower-cased message does not contain "validation
failed", and the message does not contain "duplicate key" as written. -/
theorem objectid_failed_gives_404_iff (u : UnicodeLowering) (err : Err) (req : Req)
    (res : Res) (next : Next) (m : JSString) (hm : err.message = some m) :
    respondsWith u err req res next 404 ↔
      js "objectid failed" <:+: toLowerCase u m ∧
      ¬ js "validation failed" <:+: toLowerCase u m ∧
      ¬ js "duplicate key" <:+: m := by
  rw [respondsWith_iff u err req res next m hm, tableStatus]
  split_ifs <;> simp_all

/-- C4: the answer is 500 exactly when none of the three patterns matches, and
the answer is always one of 400, 409, 404 and 500. -/
theorem no_match_gives_500_iff (u : UnicodeLowering) (err : Err) (req : Req) (res : Res)
    (next : Next) (m : JSString) (hm : err.message = some m) :
    (respondsWith u err req res next 500 ↔
      ¬ js "validation failed" <:+: toLowerCase u m ∧
      ¬ js "duplicate key" <:+: m ∧
      ¬ js "objectid failed" <:+: toLowerCase u m) ∧
    (respondsWith u err req res next 400 ∨ respondsWith u err req res next 409 ∨
      respondsWith u err req res next 404 ∨ respondsWith u err req res next 500) := by
  simp only [respondsWith_iff u err req res next m hm, tableStatus]
  constructor
  · split_ifs <;> simp_all
  · split_ifs <;> simp

/-- C1 at a message that has "VALIDATION Failed" in mixed case beside
"duplicate key" and "objectid failed". -/
theorem validation_failed_gives_400_witness :
    isCaseVariantOf (js "VALIDATION Failed") (js "validation failed") ∧
    respondsWith asciiOnly
      (errorWith (js "Leader " ++ js "VALIDATION Failed" ++ js ": duplicate key, objectid failed"))
      sampleReq freshRes freshNext 400 :=
  ⟨by decide,
   (validation_failed_gives_400 asciiOnly _ sampleReq freshRes freshNext _ rfl).2
     (js "Leader ") (js "VALIDATION Failed") (js ": duplicate key, objectid failed") rfl
     (by decide)⟩

/-- C2 at a duplicate-key message that also mentions "ObjectId Failed". -/
theorem duplicate_key_gives_409_iff_witness :
    js "duplicate key" <:+: js "E11000 duplicate key error, ObjectId Failed" ∧
    ¬ js "validation failed" <:+:
      toLowerCase asciiOnly (js "E11000 duplicate key error, ObjectId Failed") ∧
    respondsWith asciiOnly (errorWith (js "E11000 duplicate key error, ObjectId Failed"))
      sampleReq freshRes freshNext 409 :=
  ⟨by decide, by decide,
   (duplicate_key_gives_409_iff asciiOnly _ sampleReq freshRes freshNext _ rfl).1.mpr
     ⟨by decide, by decide⟩⟩

/-- C3 at the cast failure of the route tests' identifier. -/
theorem objectid_failed_gives_404_iff_witness :
    js "objectid failed" <:+: toLowerCase asciiOnly (castErrorMessage testId) ∧
    respondsWith asciiOnly (errorWith (castErrorMessage testId))
      sampleReq freshRes freshNext 404 :=
  ⟨by decide,
   (objectid_failed_gives_404_iff asciiOnly _ sampleReq freshRes freshNext _ rfl).mpr
     ⟨by decide, by decide, by decide⟩⟩

/-- C4 at a message that matches no row. -/
theorem no_match_gives_500_iff_witness :
    ¬ js "objectid failed" <:+: toLowerCase asciiOnly (js "connection refused") ∧
    respondsWith asciiOnly (errorWith (js "connection refused"))
      sampleReq freshRes freshNext 500 :=
  ⟨by decide,
   (no_match_gives_500_iff asciiOnly _ sampleReq freshRes freshNext _ rfl).1.mpr
     ⟨by decide, by decide, by decide⟩⟩

/-! ## Cast failures -/

theorem castErrorMessage_split (id : JSString) :
    castErrorMessage id =
      js "Cast to " ++ js "ObjectId failed" ++ (js " for value \"" ++ id ++ js "\" at path \"_id\"") := by
  unfold castErrorMessage
  have h : js "Cast to ObjectId failed for value \"" =
      js "Cast to " ++ js "ObjectId failed" ++ js " for value \"" := by decide
  rw [h]
  simp only [List.append_assoc]

theorem castErrorMessage_quoted (id : JSString) :
    castErrorMessage id =
      js "Cast to ObjectId failed for value " ++ 34 :: (id ++ 34 :: js " at path \"_id\"") := by
  unfold castErrorMessage
  have h1 : js "Cast to ObjectId failed for value \"" =
      js "Cast to ObjectId failed for value " ++ [34] := by decide
  have h2 : js "\" at path \"_id\"" = 34 :: js " at path \"_id\"" := by decide
  rw [h1, h2]
  simp

theorem castErrorMessage_objectid (u : UnicodeLowering) (id : JSString) :
    js "objectid failed" <:+: toLowerCase u (castErrorMessage id) := by
  rw [castErrorMessage_split]
  exact caseVariant_lowered u _ _ _ _ ascii_objectid (by decide)

theorem castErrorMessage_duplicate (id : JSString) :
    js "duplicate key" <:+: castErrorMessage id ↔ js "duplicate key" <:+: id := by
  have hq : (34 : Nat) ∉ js "duplicate key" := by decide
  have hp : ¬ js "duplicate key" <:+: js "Cast to ObjectId failed for value " := by decide
  have hs : ¬ js "duplicate key" <:+: js " at path \"_id\"" := by decide
  rw [castErrorMessage_quoted, infix_append_cons_of_not_mem hq, infix_append_cons_of_not_mem hq]
  constructor
  · rintro (h | h | h)
    · exact absurd h hp
    · exact h
    · exact absurd h hs
  · intro h
    exact Or.inr (Or.inl h)

/-- C5, as stated, fails: the cast failure of the identifier "validation
failed" is answered with 400, and that of "duplicate key" with 409. -/
theorem cast_failure_not_always_404 :
    respondsWith asciiOnly (errorWith (castErrorMessage (js "validation failed")))
      sampleReq freshRes freshNext 400 ∧
    ¬ respondsWith asciiOnly (errorWith (castErrorMessage (js "validation failed")))
      sampleReq freshRes freshNext 404 ∧
    respondsWith asciiOnly (errorWith (castErrorMessage (js "duplicate key")))
      sampleReq freshRes freshNext 409 ∧
    ¬ respondsWith asciiOnly (errorWith (castErrorMessage (js "duplicate key")))
      sampleReq freshRes freshNext 404 := by
  decide

/-- C5, amended: the cast failure of an identifier `id` is answered with 404
exactly when the lower-cased message does not contain "validation failed" and
`id` does not contain "duplicate key" as written. -/
theorem cast_failure_gives_404_iff (u : UnicodeLowering) (err : Err) (req : Req) (res : Res)
    (next : Next) (id : JSString) (hm : err.message = some (castErrorMessage id)) :
    respondsWith u err req res next 404 ↔
      ¬ js "validation failed" <:+: toLowerCase u (castErrorMessage id) ∧
      ¬ js "duplicate key" <:+: id := by
  have hoid := castErrorMessage_objectid u id
  have hdup := castErrorMessage_duplicate id
  rw [respondsWith_iff u err req res next _ hm, tableStatus]
  split_ifs <;> simp_all

/-- C5, amended, at the identifier of the route tests. -/
theorem cast_failure_gives_404_iff_witness :
    ¬ js "duplicate key" <:+: testId ∧
    respondsWith asciiOnly (errorWith (castErrorMessage testId))
      sampleReq freshRes freshNext 404 :=
  ⟨by decide,
   (cast_failure_gives_404_iff asciiOnly _ sampleReq freshRes freshNext testId rfl).mpr
     ⟨by decide, by decide⟩⟩

/-! ## The handler's effects -/

theorem errorMiddleware_messageless (u : UnicodeLowering) (err : Err) (req : Req) (res : Res)
    (next : Next) (hm : err.message = none) :
    errorMiddleware u err req res next = Except.error JSError.typeError := by
  unfold errorMiddleware
  rw [hm]

/-- C6: on an error with a string message the handler returns normally, the
calls on the response are the earlier ones followed by the single call
`sendStatus` with the status of the table, and `next` has not been invoked. -/
theorem handler_is_terminal (u : UnicodeLowering) (err : Err) (req : Req) (res : Res)
    (next : Next) (m : JSString) (hm : err.message = some m) :
    ∃ res1 next1, errorMiddleware u err req res next = Except.ok (res1, next1) ∧
      res1.calls = res.calls ++ [ResCall.sendStatus (tableStatus u m)] ∧
      next1.invocations = next.invocations :=
  ⟨res.sendStatus (tableStatus u m), next, errorMiddleware_table u err req res next m hm,
    rfl, rfl⟩

/-- C6 at a response that already has a call on it and a duplicate-key error. -/
theorem handler_is_terminal_witness :
    ∃ res1 next1,
      errorMiddleware asciiOnly (errorWith (js "E11000 duplicate key error"))
        sampleReq { calls := [ResCall.status 200] } freshNext = Except.ok (res1, next1) ∧
      res1.calls = [ResCall.status 200] ++
        [ResCall.sendStatus (tableStatus asciiOnly (js "E11000 duplicate key error"))] ∧
      next1.invocations = freshNext.invocations :=
  handler_is_terminal asciiOnly (errorWith (js "E11000 duplicate key error"))
    sampleReq { calls := [ResCall.status 200] } freshNext _ rfl

/-- C7: a message that has "duplicate key" only in another letter case, and
matches neither other row, is answered with 500 and not with 409; a message
with "objectid failed" in any letter case that matches neither earlier row is
answered with 404. -/
theorem duplicate_key_rule_is_case_sensitive (u : UnicodeLowering) (err : Err) (req : Req)
    (res : Res) (next : Next) (m : JSString) (hm : err.message = some m) :
    (∀ v : JSString, isCaseVariantOf v (js "duplicate key") → v <:+: m →
      ¬ js "duplicate key" <:+: m →
      ¬ js "validation failed" <:+: toLowerCase u m →
      ¬ js "objectid failed" <:+: toLowerCase u m →
      respondsWith u err req res next 500 ∧ ¬ respondsWith u err req res next 409) ∧
    (∀ a v b : JSString, m = a ++ v ++ b → isCaseVariantOf v (js "objectid failed") →
      ¬ js "validation failed" <:+: toLowerCase u m →
      ¬ js "duplicate key" <:+: m →
      respondsWith u err req res next 404) := by
  simp only [respondsWith_iff u err req res next m hm, tableStatus]
  constructor
  · intro v _ _ hdup hval hoid
    rw [if_neg hval, if_neg hdup, if_neg hoid]
    simp
  · intro a v b hab hv hval hdup
    have hoid : js "objectid failed" <:+: toLowerCase u m := by
      rw [hab]
      exact caseVariant_lowered u a v b _ ascii_objectid hv
    rw [if_neg hval, if_neg hdup, if_pos hoid]

/-- C7 at "E11000 Duplicate Key error" and at "Cast to OBJECTID Failed". -/
theorem duplicate_key_rule_is_case_sensitive_witness :
    (isCaseVariantOf (js "Duplicate Key") (js "duplicate key") ∧
      js "Duplicate Key" <:+: js "E11000 Duplicate Key error" ∧
      respondsWith asciiOnly (errorWith (js "E11000 Duplicate Key error"))
        sampleReq freshRes freshNext 500 ∧
      ¬ respondsWith asciiOnly (errorWith (js "E11000 Duplicate Key error"))
        sampleReq freshRes freshNext 409) ∧
    (isCaseVariantOf (js "OBJECTID Failed") (js "objectid failed") ∧
      respondsWith asciiOnly (errorWith (js "Cast to " ++ js "OBJECTID Failed" ++ js " for value"))
        sampleReq freshRes freshNext 404) :=
  ⟨⟨by decide, by decide,
    (duplicate_key_rule_is_case_sensitive asciiOnly _ sampleReq freshRes freshNext
      (js "E11000 Duplicate Key error") rfl).1 (js "Duplicate Key")
      (by decide) (by decide) (by decide) (by decide) (by decide)⟩,
   ⟨by decide,
    (duplicate_key_rule_is_case_sensitive asciiOnly _ sampleReq freshRes freshNext
      (js "Cast to " ++ js "OBJECTID Failed" ++ js " for value") rfl).2
      (js "Cast to ") (js "OBJECTID Failed") (js " for value") rfl
      (by decide) (by decide) (by decide)⟩⟩

/-- C8, as stated, fails: on an error value without a message the handler
throws a `TypeError` and sends no status. -/
theorem messageless_error_throws :
    errorMiddleware asciiOnly messageless sampleReq freshRes freshNext =
      Except.error JSError.typeError ∧
    ¬ respondsWith asciiOnly messageless sampleReq freshRes freshNext 500 := by
  decide

/-- C8, amended: on an error whose message is a string (the empty string
included) that matches none of the three patterns, the handler does not throw
and answers with 500. -/
theorem unmatched_message_gives_500 (u : UnicodeLowering) (err : Err) (req : Req) (res : Res)
    (next : Next) (m : JSString) (hm : err.message = some m)
    (hval : ¬ js "validation failed" <:+: toLowerCase u m)
    (hdup : ¬ js "duplicate key" <:+: m)
    (hoid : ¬ js "objectid failed" <:+: toLowerCase u m) :
    errorMiddleware u err req res next = Except.ok (res.sendStatus 500, next) ∧
    ∀ e : JSError, errorMiddleware u err req res next ≠ Except.error e := by
  have h : errorMiddleware u err req res next = Except.ok (res.sendStatus 500, next) := by
    rw [errorMiddleware_table u err req res next m hm, tableStatus, if_neg hval, if_neg hdup,
      if_neg hoid]
  refine ⟨h, ?_⟩
  intro e he
  rw [h] at he
  exact Except.noConfusion he

/-- C8, amended, at an error whose message is the empty string. -/
theorem unmatched_message_gives_500_witness :
    (errorWith []).message = some [] ∧
    errorMiddleware asciiOnly (errorWith []) sampleReq freshRes freshNext =
      Except.ok (freshRes.sendStatus 500, freshNext) :=
  ⟨rfl,
   (unmatched_message_gives_500 asciiOnly (errorWith []) sampleReq freshRes freshNext [] rfl
     (by decide) (by decide) (by decide)).1⟩

/-- C10: two invocations on errors with equal messages send the same status,
or throw alike, whatever the requests, the responses' earlier calls, the
errors' other fields and the `next` callbacks are. -/
theorem status_determined_by_message (u : UnicodeLowering) (err1 err2 : Err) (req1 req2 : Req)
    (res1 res2 : Res) (next1 next2 : Next) (h : err1.message = err2.message) :
    (∀ code : Nat, respondsWith u err1 req1 res1 next1 code ↔
      respondsWith u err2 req2 res2 next2 code) ∧
    (∀ e : JSError, errorMiddleware u err1 req1 res1 next1 = Except.error e ↔
      errorMiddleware u err2 req2 res2 next2 = Except.error e) ∧
    (∀ m : JSString, err1.message = some m →
      respondsWith u err1 req1 res1 next1 (tableStatus u m) ∧
      respondsWith u err2 req2 res2 next2 (tableStatus u m)) := by
  cases hm : err1.message with
  | none =>
    have h1 := errorMiddleware_messageless u err1 req1 res1 next1 hm
    have h2 := errorMiddleware_messageless u err2 req2 res2 next2 (h ▸ hm)
    refine ⟨?_, ?_, ?_⟩
    · intro code
      unfold respondsWith
      rw [h1, h2]
      constructor <;> intro hc <;> exact Except.noConfusion hc
    · intro e
      rw [h1, h2]
    · intro m hm1
      exact Option.noConfusion hm1
  | some m =>
    have hm2 : err2.message = some m := h ▸ hm
    refine ⟨?_, ?_, ?_⟩
    · intro code
      rw [respondsWith_iff u err1 req1 res1 next1 m hm,
        respondsWith_iff u err2 req2 res2 next2 m hm2]
    · intro e
      rw [errorMiddleware_table u err1 req1 res1 next1 m hm,
        errorMiddleware_table u err2 req2 res2 next2 m hm2]
      constructor <;> intro hc <;> exact Except.noConfusion hc
    · intro m1 hm1
      injection hm1 with hm1
      subst hm1
      exact ⟨(respondsWith_iff u err1 req1 res1 next1 m hm _).mpr rfl,
        (respondsWith_iff u err2 req2 res2 next2 m hm2 _).mpr rfl⟩

/-- C10 at two errors that share the message of a cast failure and differ in
every other argument. -/
theorem status_determined_by_message_witness :
    (errorWith (castErrorMessage testId)).message =
      ({ message := some (castErrorMessage testId), name := js "CastError", code := some 7,
         stack := some (js "at model.Query") } : Err).message ∧
    (respondsWith asciiOnly (errorWith (castErrorMessage testId)) sampleReq freshRes freshNext 404 ↔
      respondsWith asciiOnly
        { message := some (castErrorMessage testId), name := js "CastError", code := some 7,
          stack := some (js "at model.Query") }
        { method := js "PUT", url := js "/api/leader/1", body := js "x" }
        { calls := [ResCall.status 200] } { invocations := 3 } 404) :=
  ⟨rfl,
   (status_determined_by_message asciiOnly (errorWith (castErrorMessage testId))
     { message := some (castErrorMessage testId), name := js "CastError", code := some 7,
       stack := some (js "at model.Query") }
     sampleReq { method := js "PUT", url := js "/api/leader/1", body := js "x" }
     freshRes { calls := [ResCall.status 200] } freshNext { invocations := 3 } rfl).1 404⟩

/-! ## The paginated listing -/

theorem list_length (store : List Leader) (p : Nat) :
    (list store (some p)).length = min 10 (store.length - (p - 1) * 10) := by
  simp [list, pageOffset, pageLimit]

/-- C9: for a store of `n` leaders and a page `p ≥ 1`, the listing answers 200
with the records at offset `(p-1)*10`, at most 10 of them, that is
`min(10, max(0, n - (p-1)*10))` records; the page defaults to 1; with 20
leaders pages 1 and 2 have 10 records each and page 3 is empty. -/
theorem getLeaders_page (store : List Leader) (p : Nat) (hp : 1 ≤ p) :
    (getLeaders store (some p)).1 = 200 ∧
    (getLeaders store (some p)).2 = (store.drop ((p - 1) * 10)).take 10 ∧
    (((getLeaders store (some p)).2.length : Nat) : Int) =
      min 10 (max 0 ((store.length : Int) - ((p : Int) - 1) * 10)) ∧
    getLeaders store none = getLeaders store (some 1) ∧
    (store.length = 20 →
      (getLeaders store none).2.length = 10 ∧
      (getLeaders store (some 1)).2.length = 10 ∧
      (getLeaders store (some 2)).2.length = 10 ∧
      (getLeaders store (some 3)).2 = []) := by
  refine ⟨rfl, rfl, ?_, rfl, ?_⟩
  · show (((list store (some p)).length : Nat) : Int) = _
    rw [list_length]
    omega
  · intro h20
    refine ⟨?_, ?_, ?_, ?_⟩
    · show (list store (some 1)).length = 10
      rw [list_length, h20]; decide
    · show (list store (some 1)).length = 10
      rw [list_length, h20]; decide
    · show (list store (some 2)).length = 10
      rw [list_length, h20]; decide
    · apply List.eq_nil_of_length_eq_zero
      show (list store (some 3)).length = 0
      rw [list_length, h20]; decide

/-- C9 at a store of 20 leaders and page 3. -/
theorem getLeaders_page_witness :
    1 ≤ 3 ∧ (mockLeaders 20).length = 20 ∧
    (getLeaders (mockLeaders 20) (some 2)).2.length = 10 ∧
    (getLeaders (mockLeaders 20) (some 3)).2 = [] :=
  ⟨by decide, by decide,
   ((getLeaders_page (mockLeaders 20) 3 (by decide)).2.2.2.2 (by decide)).2.2.1,
   ((getLeaders_page (mockLeaders 20) 3 (by decide)).2.2.2.2 (by decide)).2.2.2⟩

end Lab13
